import Mathlib

/-!
# Verification of the PimaxXR system module

Shallow embedding of `src/pimax-openxr/system.cpp` and
`src/pimax-openxr/companion.cpp`. The C++ `float` arithmetic is modelled
over the exact reals `ℝ`; the vendor (PVR) SDK is the external device
service, modelled as explicit inputs (call results and returned data) to
each embedded operation. Quaternion math from the vendor math library
(`PVR::Quatf`) is modelled with the standard formulas it implements.
-/

namespace PimaxXR

open Real

/-- Model of `pvrQuatf` / `PVR::Quatf`: a quaternion with real components. -/
structure Quatf where
  w : ℝ
  x : ℝ
  y : ℝ
  z : ℝ

/-- Model of `PVR::Quatf::Identity()`: the identity quaternion (w = 1). -/
def Quatf.identity : Quatf := ⟨1, 0, 0, 0⟩

/-- Quaternion dot product, as used by the vendor math library. -/
def Quatf.dot (a b : Quatf) : ℝ := a.w * b.w + a.x * b.x + a.y * b.y + a.z * b.z

/-- Model of the vendor math library's `PVR::Quatf::Angle(b)`: the angular
separation between two unit quaternions, `2 * arccos |⟨a, b⟩|`. -/
noncomputable def Quatf.angleBetween (a b : Quatf) : ℝ :=
  2 * Real.arccos |a.dot b|

/-- Model of `pvrPosef`: an orientation plus a position.  The code under
verification reads and writes only the orientation. -/
structure Posef where
  orientation : Quatf
  px : ℝ
  py : ℝ
  pz : ℝ

/-- Model of `pvrFovPort`: tangent-space FOV boundaries (tangents of the
visible half-angles on each side of the optical axis). -/
structure FovPort where
  upTan : ℝ
  downTan : ℝ
  leftTan : ℝ
  rightTan : ℝ

/-- Model of `pvrEyeRenderInfo` (the fields the code reads): the
hmd-to-eye pose and the tangent-space FOV. -/
structure EyeRenderInfo where
  hmdToEyePose : Posef
  fov : FovPort

/-- Model of `XrFovf` as filled by `updateEyeInfo`: four signed
half-angles in radians. -/
structure EyeFov where
  angleDown : ℝ
  angleUp : ℝ
  angleLeft : ℝ
  angleRight : ℝ

/-- Model of `PVR::DegreeToRad`. -/
noncomputable def degreeToRad (d : ℝ) : ℝ := d * (Real.pi / 180)

/-- Model of `PVR::RadToDegree`. -/
noncomputable def radToDegree (r : ℝ) : ℝ := r * (180 / Real.pi)

/-- The canting angle as computed at `system.cpp:244` and
`companion.cpp:59`: half the angular separation of the two eyes'
orientation quaternions. -/
noncomputable def cantingAngleOf (o0 o1 : Quatf) : ℝ :=
  Quatf.angleBetween o0 o1 / 2

/-- The raw per-eye angular FOV computed at `system.cpp:246-249`:
each tangent boundary converted to an angle by `atan`, with left/down
negated. -/
noncomputable def rawEyeFov (info : EyeRenderInfo) : EyeFov :=
  { angleDown := -Real.arctan info.fov.downTan
    angleUp := Real.arctan info.fov.upTan
    angleLeft := -Real.arctan info.fov.leftTan
    angleRight := Real.arctan info.fov.rightTan }

/-- Result of `OpenXrRuntime::updateEyeInfo` (`system.cpp:243-267`):
the new `m_cantingAngle`, the (possibly de-canted) `m_cachedEyeInfo`,
and the derived `m_cachedEyeFov`. -/
structure EyeInfoUpdate where
  cantingAngle : ℝ
  cachedEyeInfo : Fin 2 → EyeRenderInfo
  cachedEyeFov : Fin 2 → EyeFov

open Classical in
/-- Model of `OpenXrRuntime::updateEyeInfo` (`system.cpp:243-267`).
`useParallelProjection` is the member `m_useParallelProjection`; the C
truthiness test `m_cantingAngle` is modelled as `≠ 0`. -/
noncomputable def updateEyeInfo (useParallelProjection : Bool)
    (eyeInfo : Fin 2 → EyeRenderInfo) : EyeInfoUpdate :=
  let canting := cantingAngleOf (eyeInfo 0).hmdToEyePose.orientation
      (eyeInfo 1).hmdToEyePose.orientation
  if useParallelProjection = true ∧ canting ≠ 0 then
    { cantingAngle := canting
      cachedEyeInfo := fun i =>
        { eyeInfo i with
          hmdToEyePose := { (eyeInfo i).hmdToEyePose with orientation := Quatf.identity } }
      cachedEyeFov := fun i =>
        let raw := rawEyeFov (eyeInfo i)
        let angle := if i = 0 then -canting else canting
        { angleDown := raw.angleDown - degreeToRad 6
          angleUp := raw.angleUp + degreeToRad 6
          angleLeft := raw.angleLeft + angle
          angleRight := raw.angleRight + angle } }
  else
    { cantingAngle := canting
      cachedEyeInfo := eyeInfo
      cachedEyeFov := fun i => rawEyeFov (eyeInfo i) }

/-! ## OpenXR result codes and enumerations (the values this module uses) -/

/-- The `XrResult` values returned by the embedded functions. -/
inductive XrResult
  | success
  | errorValidationFailure
  | errorHandleInvalid
  | errorFormFactorUnsupported
  | errorFormFactorUnavailable
  | errorSystemInvalid
  | errorViewConfigurationTypeUnsupported
  | errorSizeInsufficient
  | errorRuntimeFailure
deriving DecidableEq

/-- Model of `pvrResult` as the code distinguishes it: success,
`pvr_rpc_failed` (service unreachable), or any other failure (which
`CHECK_PVRCMD` turns into a hard runtime failure). -/
inductive PvrResult
  | success
  | rpcFailed
  | otherFailure
deriving DecidableEq

/-- Model of `XrFormFactor` (only the HMD value is accepted). -/
inductive XrFormFactor
  | headMountedDisplay
  | handheldDisplay
deriving DecidableEq

/-- Model of `XrViewConfigurationType` (only primary stereo is accepted). -/
inductive XrViewConfigurationType
  | primaryMono
  | primaryStereo
  | otherConfiguration
deriving DecidableEq

/-- Model of `XrEnvironmentBlendMode`. -/
inductive XrEnvironmentBlendMode
  | opaqueBlend
  | additiveBlend
  | alphaBlend
deriving DecidableEq

/-! ## Runtime state and the device service -/

/-- Model of `pvrHmdStatus`: the flags returned by `pvr_getHmdStatus`. -/
structure HmdStatus where
  serviceReady : Bool
  hmdPresent : Bool
  hmdMounted : Bool
  isVisible : Bool
  displayLost : Bool
  shouldQuit : Bool
deriving DecidableEq

/-- Model of `pvrHmdInfo` (the fields the code consumes). -/
structure HmdInfo where
  vendorId : Nat
  productId : Nat
  productName : String
  resolutionW : Nat
  resolutionH : Nat
deriving DecidableEq

/-- The mutable members of `OpenXrRuntime` that `system.cpp` reads or
writes. -/
structure RuntimeState where
  instanceCreated : Bool
  pvrSession : Bool
  systemCreated : Bool
  loggedProductName : Bool
  useParallelProjection : Bool
  hasHandTrackingExt : Bool
  cachedHmdInfo : HmdInfo
  floorHeight : ℝ
  cachedEyeInfo : Fin 2 → EyeRenderInfo
  cachedEyeFov : Fin 2 → EyeFov
  cantingAngle : ℝ

/-- One consistent snapshot of the device service (PVR) for the duration
of one `xrGetSystem` call: the result of each call the code makes and
the data a successful call returns. -/
structure Device where
  createSessionResult : PvrResult
  getHmdStatusResult : PvrResult
  hmdStatus : HmdStatus
  getHmdInfoResult : PvrResult
  hmdInfo : HmdInfo
  eyeHeightConfig : ℝ
  getEyeRenderInfoLeftResult : PvrResult
  getEyeRenderInfoRightResult : PvrResult
  eyeRenderInfo : Fin 2 → EyeRenderInfo
  setTrackingOriginResult : PvrResult

/-- Outcome of `xrGetSystem`: the returned `XrResult`, the state of the
runtime afterwards, and the system id written on success. -/
structure GetSystemOutcome where
  result : XrResult
  state : RuntimeState
  systemIdOut : Option Nat

/-- The tail of `OpenXrRuntime::xrGetSystem` once a device session
exists (`system.cpp:65-121`): HMD status check, identity / floor-height
/ eye-info refresh, `updateEyeInfo`, tracking-origin setup, and the
final `m_systemCreated = true`. `st1` is the runtime state with the
session established. `CHECK_PVRCMD` on a failure is modelled as
returning a hard runtime failure with the state as mutated so far. -/
noncomputable def getSystemRefresh (st1 : RuntimeState) (dev : Device) : GetSystemOutcome :=
  if dev.getHmdStatusResult ≠ PvrResult.success then
    ⟨.errorRuntimeFailure, st1, none⟩
  else if ¬(dev.hmdStatus.serviceReady = true ∧ dev.hmdStatus.hmdPresent = true) then
    ⟨.errorFormFactorUnavailable, st1, none⟩
  else if dev.getHmdInfoResult ≠ PvrResult.success then
    ⟨.errorRuntimeFailure, st1, none⟩
  else
    let st2 := { st1 with
      cachedHmdInfo := dev.hmdInfo
      loggedProductName := true
      floorHeight := dev.eyeHeightConfig }
    if dev.getEyeRenderInfoLeftResult ≠ PvrResult.success then
      ⟨.errorRuntimeFailure, st2, none⟩
    else
      let st3 := { st2 with
        cachedEyeInfo := Function.update st2.cachedEyeInfo 0 (dev.eyeRenderInfo 0) }
      if dev.getEyeRenderInfoRightResult ≠ PvrResult.success then
        ⟨.errorRuntimeFailure, st3, none⟩
      else
        let st4 := { st3 with
          cachedEyeInfo := Function.update st3.cachedEyeInfo 1 (dev.eyeRenderInfo 1) }
        let u := updateEyeInfo st4.useParallelProjection st4.cachedEyeInfo
        let st5 := { st4 with
          cantingAngle := u.cantingAngle
          cachedEyeInfo := u.cachedEyeInfo
          cachedEyeFov := u.cachedEyeFov }
        if dev.setTrackingOriginResult ≠ PvrResult.success then
          ⟨.errorRuntimeFailure, st5, none⟩
        else
          ⟨.success, { st5 with systemCreated := true }, some 1⟩

/-- Model of `OpenXrRuntime::xrGetSystem` (`system.cpp:35-122`).
`getInfoTypeIsSystemGetInfo` models the `getInfo->type` tag check;
`inst` is the caller's instance handle (the valid handle is 1). -/
noncomputable def xrGetSystem (st : RuntimeState) (dev : Device)
    (inst : Nat) (getInfoTypeIsSystemGetInfo : Bool)
    (formFactor : XrFormFactor) : GetSystemOutcome :=
  if getInfoTypeIsSystemGetInfo = false then
    ⟨.errorValidationFailure, st, none⟩
  else if st.instanceCreated = false ∨ inst ≠ 1 then
    ⟨.errorHandleInvalid, st, none⟩
  else if formFactor ≠ XrFormFactor.headMountedDisplay then
    ⟨.errorFormFactorUnsupported, st, none⟩
  else if st.pvrSession = false ∧ dev.createSessionResult = PvrResult.rpcFailed then
    ⟨.errorFormFactorUnavailable, st, none⟩
  else if st.pvrSession = false ∧ dev.createSessionResult ≠ PvrResult.success then
    ⟨.errorRuntimeFailure, st, none⟩
  else
    getSystemRefresh { st with pvrSession := true } dev

/-! ## `xrGetSystemProperties` -/

/-- The `XrStructureType` tags relevant to the chain walk in
`xrGetSystemProperties`. `otherTag n` stands for any unrecognized tag. -/
inductive XrStructureType
  | systemHandTrackingPropertiesEXT
  | otherTag : Nat → XrStructureType
deriving DecidableEq

/-- One entry of the `next` chain handed to `xrGetSystemProperties`,
viewed through the `reinterpret_cast<XrSystemHandTrackingPropertiesEXT*>`
the code performs: its type tag and the memory at the offset of the
`supportsHandTracking` field. -/
structure ChainBlock where
  type : XrStructureType
  supportsHandTracking : Bool
deriving DecidableEq

/-- The chain walk at `system.cpp:143-153`: `handTrackingProperties`
starts at the head of the chain; only when `has_XR_EXT_hand_tracking` is
set does the `while` loop advance it to the first block whose tag is the
hand-tracking tag (or to null if there is none). Returns the index the
pointer ends on, or `none` for null. -/
def handTrackingCursor (hasHandTrackingExt : Bool) (chain : List ChainBlock) : Option Nat :=
  if hasHandTrackingExt then
    chain.findIdx? fun b => b.type = XrStructureType.systemHandTrackingPropertiesEXT
  else if chain.isEmpty then none
  else some 0

/-- Write `supportsHandTracking := true` into the chain block at the
given index (the write at `system.cpp:182`). -/
def writeSupportsHandTracking : List ChainBlock → Nat → List ChainBlock
  | [], _ => []
  | b :: rest, 0 => { b with supportsHandTracking := true } :: rest
  | b :: rest, n + 1 => b :: writeSupportsHandTracking rest n

/-- Model of `pvrMaxLayerCount` from the vendor SDK headers. -/
def pvrMaxLayerCount : Nat := 16

/-- The fields of `XrSystemProperties` the code fills. -/
structure SystemProperties where
  vendorId : Nat
  systemName : String
  systemId : Nat
  positionTracking : Bool
  orientationTracking : Bool
  maxLayerCount : Nat
  maxSwapchainImageWidth : Nat
  maxSwapchainImageHeight : Nat
deriving DecidableEq

/-- Outcome of `xrGetSystemProperties`: the result code, the filled
top-level properties (on success), and the chain memory afterwards. -/
structure GetPropertiesOutcome where
  result : XrResult
  properties : Option SystemProperties
  chain : List ChainBlock

/-- Model of `OpenXrRuntime::xrGetSystemProperties`
(`system.cpp:125-191`). `chain` is the `properties->next` chain;
`propertiesTypeOk` models the `properties->type` tag check. -/
def xrGetSystemProperties (st : RuntimeState) (inst sysId : Nat)
    (propertiesTypeOk : Bool) (chain : List ChainBlock) : GetPropertiesOutcome :=
  if propertiesTypeOk = false then
    ⟨.errorValidationFailure, none, chain⟩
  else if st.instanceCreated = false ∨ inst ≠ 1 then
    ⟨.errorHandleInvalid, none, chain⟩
  else if st.systemCreated = false ∨ sysId ≠ 1 then
    ⟨.errorSystemInvalid, none, chain⟩
  else
    let props : SystemProperties :=
      { vendorId := st.cachedHmdInfo.vendorId
        systemName := st.cachedHmdInfo.productName ++ " (aapvr)"
        systemId := sysId
        positionTracking := true
        orientationTracking := true
        maxLayerCount := pvrMaxLayerCount
        maxSwapchainImageWidth := 16384
        maxSwapchainImageHeight := 16384 }
    match handTrackingCursor st.hasHandTrackingExt chain with
    | none => ⟨.success, some props, chain⟩
    | some i => ⟨.success, some props, writeSupportsHandTracking chain i⟩

/-! ## `xrEnumerateEnvironmentBlendModes` -/

/-- The fixed capability list at `system.cpp:201`. -/
def blendModes : List XrEnvironmentBlendMode := [.opaqueBlend]

/-- Outcome of `xrEnumerateEnvironmentBlendModes`: the result code, the
count output (written only once validation passes), and the sequence of
entries written to the caller's array. -/
structure BlendModesOutcome where
  result : XrResult
  countOutput : Option Nat
  written : List XrEnvironmentBlendMode
deriving DecidableEq

/-- Model of `OpenXrRuntime::xrEnumerateEnvironmentBlendModes`
(`system.cpp:194-241`). `arrayProvided` is whether the caller passed a
non-null `environmentBlendModes` pointer; `written` records the entries
the fill loop stores. -/
def xrEnumerateEnvironmentBlendModes (st : RuntimeState) (inst sysId : Nat)
    (viewConfigurationType : XrViewConfigurationType)
    (capacityInput : Nat) (arrayProvided : Bool) : BlendModesOutcome :=
  if st.instanceCreated = false ∨ inst ≠ 1 then
    ⟨.errorHandleInvalid, none, []⟩
  else if st.systemCreated = false ∨ sysId ≠ 1 then
    ⟨.errorSystemInvalid, none, []⟩
  else if viewConfigurationType ≠ XrViewConfigurationType.primaryStereo then
    ⟨.errorViewConfigurationTypeUnsupported, none, []⟩
  else if capacityInput ≠ 0 ∧ capacityInput < blendModes.length then
    ⟨.errorSizeInsufficient, none, []⟩
  else if capacityInput ≠ 0 ∧ arrayProvided = true then
    ⟨.success, some blendModes.length, blendModes⟩
  else
    ⟨.success, some blendModes.length, []⟩

/-! ## The companion diagnostic snapshot (`companion.cpp`) -/

/-- The truthiness-based parallel-projection selection at
`companion.cpp:62`: `cantingAngle && !pvr_getIntConfig(pvrSession,
"steamvr_use_native_fov", 0)`, with C truthiness of a float or int
meaning "nonzero". -/
noncomputable def useParallelProjectionFlag (cantingAngle : ℝ)
    (steamvrUseNativeFov : Int) : Bool :=
  (Classical.propDecidable (cantingAngle ≠ 0)).decide (cantingAngle ≠ 0)
    && !(decide (steamvrUseNativeFov ≠ 0))

/-- The spec's `ProjectionMode` enumeration. -/
inductive ProjectionMode
  | native
  | parallelProjectionCorrected
deriving DecidableEq

/-- The projection mode the code's boolean selects:
`ParallelProjectionCorrected` exactly when the flag of
`companion.cpp:62` is true, `Native` otherwise. -/
noncomputable def projectionMode (cantingAngle : ℝ)
    (steamvrUseNativeFov : Int) : ProjectionMode :=
  if useParallelProjectionFlag cantingAngle steamvrUseNativeFov then
    ProjectionMode.parallelProjectionCorrected
  else
    ProjectionMode.native

/-- Model of `pvrSizei`. -/
structure PvrSizei where
  w : Nat
  h : Nat
deriving DecidableEq

/-- The configuration values `getRuntimeStatus` reads through
`pvr_getIntConfig` / `pvr_getFloatConfig` (defaults already applied by
the service model). -/
structure CompanionConfig where
  steamvrUseNativeFov : Int
  fovLevel : Int
  dbgAswEnable : Int
  enableLighthouseTracking : Int
  clientFps : ℝ
  eyeHeight : ℝ

/-- The `RuntimeStatus` record `getRuntimeStatus` fills. -/
structure RuntimeStatus where
  valid : Bool
  refreshRate : ℝ
  resolutionWidth : Nat
  resolutionHeight : Nat
  fovLevel : Int
  fov : ℝ
  floorHeight : ℝ
  useParallelProjection : Bool
  useSmartSmoothing : Bool
  useLighthouseTracking : Bool
  fps : ℝ

/-- Model of the companion's `getRuntimeStatus` (`companion.cpp:44-90`).
`eyeInfo` is what `pvr_getEyeRenderInfo` returns for the two eyes,
`displayRefreshRate` is `displayInfo.refresh_rate`, and
`fovTextureSize` is the device service's `pvr_getFovTextureSize` at
unit pixel density for the left eye. -/
noncomputable def getRuntimeStatus (eyeInfo : Fin 2 → EyeRenderInfo)
    (cfg : CompanionConfig) (displayRefreshRate : ℝ)
    (fovTextureSize : FovPort → PvrSizei) : RuntimeStatus :=
  let cantingAngle := cantingAngleOf (eyeInfo 0).hmdToEyePose.orientation
      (eyeInfo 1).hmdToEyePose.orientation
  let fov := radToDegree (Real.arctan (eyeInfo 0).fov.leftTan
      + Real.arctan (eyeInfo 1).fov.rightTan + cantingAngle * 2)
  let useParallelProjection := useParallelProjectionFlag cantingAngle cfg.steamvrUseNativeFov
  let fovForResolution : FovPort :=
    if useParallelProjection then
      { leftTan := Real.tan (Real.arctan (eyeInfo 0).fov.leftTan + cantingAngle)
        rightTan := Real.tan (Real.arctan (eyeInfo 0).fov.rightTan - cantingAngle)
        upTan := Real.tan (Real.arctan (eyeInfo 0).fov.upTan + degreeToRad 6)
        downTan := Real.tan (Real.arctan (eyeInfo 0).fov.downTan + degreeToRad 6) }
    else (eyeInfo 0).fov
  let viewportSize := fovTextureSize fovForResolution
  { valid := true
    refreshRate := displayRefreshRate
    resolutionWidth := viewportSize.w
    resolutionHeight := viewportSize.h
    fovLevel := cfg.fovLevel
    fov := fov
    floorHeight := cfg.eyeHeight
    useParallelProjection := useParallelProjection
    useSmartSmoothing := decide (cfg.dbgAswEnable ≠ 0)
    useLighthouseTracking := decide (cfg.enableLighthouseTracking ≠ 0)
    fps := cfg.clientFps }

/-! ## Helper definitions and lemmas -/

/-- The canting angle of a pair of eye-render infos, as both
`system.cpp:244` and `companion.cpp:59` compute it. -/
@[reducible] noncomputable def eyeCanting (eyeInfo : Fin 2 → EyeRenderInfo) : ℝ :=
  cantingAngleOf (eyeInfo 0).hmdToEyePose.orientation (eyeInfo 1).hmdToEyePose.orientation

theorem updateEyeInfo_cantingAngle (pp : Bool) (e : Fin 2 → EyeRenderInfo) :
    (updateEyeInfo pp e).cantingAngle = eyeCanting e := by
  simp only [updateEyeInfo]
  split <;> rfl

/-- Sample orientation: forward-facing (identity). -/
def qForward : Quatf := ⟨1, 0, 0, 0⟩

/-- Sample orientation at 90° from forward (unit quaternion with zero
dot product against `qForward`). -/
def qSide : Quatf := ⟨0, 1, 0, 0⟩

/-- A sample left-eye render info. -/
def eyeLeftSample : EyeRenderInfo := ⟨⟨qForward, 0, 0, 0⟩, ⟨1, 1, 1, 1⟩⟩

/-- A sample right-eye render info with an orientation differing from
the left eye's. -/
def eyeRightSample : EyeRenderInfo := ⟨⟨qSide, 0, 0, 0⟩, ⟨1, 1, 1, 1⟩⟩

/-- A sample canted eye pair. -/
def eyeSample : Fin 2 → EyeRenderInfo :=
  fun i => if i = 0 then eyeLeftSample else eyeRightSample

theorem eyeCanting_eyeSample : eyeCanting eyeSample = Real.pi / 2 := by
  have h0 : eyeSample 0 = eyeLeftSample := rfl
  have h1 : eyeSample 1 = eyeRightSample := rfl
  rw [eyeCanting, h0, h1]
  show cantingAngleOf qForward qSide = Real.pi / 2
  rw [cantingAngleOf, Quatf.angleBetween]
  have hdot : qForward.dot qSide = 0 := by
    simp [Quatf.dot, qForward, qSide]
  rw [hdot, abs_zero, Real.arccos_zero]
  ring

theorem eyeCanting_eyeSample_ne_zero : eyeCanting eyeSample ≠ 0 := by
  rw [eyeCanting_eyeSample]
  positivity

/-! ## C1: the parallel-projection correction in `updateEyeInfo` -/

/-- C1: for every pair of eye-render infos whose canting angle is
nonzero, `updateEyeInfo` with parallel-projection correction active sets
each eye's cached orientation to the identity quaternion, adds
`-cantingAngle` to both `angleLeft` and `angleRight` of the left eye and
`+cantingAngle` to both for the right eye, and adds 6° (in radians) to
`angleUp` and subtracts 6° from `angleDown` of every eye, relative to
the raw arctangent-derived angles. -/
theorem updateEyeInfo_parallel_projection_correction (e : Fin 2 → EyeRenderInfo)
    (hc : eyeCanting e ≠ 0) :
    (∀ i, ((updateEyeInfo true e).cachedEyeInfo i).hmdToEyePose.orientation = Quatf.identity) ∧
    ((updateEyeInfo true e).cachedEyeFov 0).angleLeft
        = (rawEyeFov (e 0)).angleLeft + -eyeCanting e ∧
    ((updateEyeInfo true e).cachedEyeFov 0).angleRight
        = (rawEyeFov (e 0)).angleRight + -eyeCanting e ∧
    ((updateEyeInfo true e).cachedEyeFov 1).angleLeft
        = (rawEyeFov (e 1)).angleLeft + eyeCanting e ∧
    ((updateEyeInfo true e).cachedEyeFov 1).angleRight
        = (rawEyeFov (e 1)).angleRight + eyeCanting e ∧
    (∀ i, ((updateEyeInfo true e).cachedEyeFov i).angleUp
            = (rawEyeFov (e i)).angleUp + degreeToRad 6 ∧
          ((updateEyeInfo true e).cachedEyeFov i).angleDown
            = (rawEyeFov (e i)).angleDown - degreeToRad 6) := by
  have hcond : True ∧ eyeCanting e ≠ 0 := ⟨trivial, hc⟩
  simp only [updateEyeInfo]
  rw [if_pos hcond]
  refine ⟨fun i => rfl, ?_, ?_, ?_, ?_, fun i => ⟨rfl, rfl⟩⟩
  · show (rawEyeFov (e 0)).angleLeft + (if (0 : Fin 2) = 0 then -eyeCanting e else eyeCanting e)
        = (rawEyeFov (e 0)).angleLeft + -eyeCanting e
    norm_num
  · show (rawEyeFov (e 0)).angleRight + (if (0 : Fin 2) = 0 then -eyeCanting e else eyeCanting e)
        = (rawEyeFov (e 0)).angleRight + -eyeCanting e
    norm_num
  · show (rawEyeFov (e 1)).angleLeft + (if (1 : Fin 2) = 0 then -eyeCanting e else eyeCanting e)
        = (rawEyeFov (e 1)).angleLeft + eyeCanting e
    norm_num
  · show (rawEyeFov (e 1)).angleRight + (if (1 : Fin 2) = 0 then -eyeCanting e else eyeCanting e)
        = (rawEyeFov (e 1)).angleRight + eyeCanting e
    norm_num

/-- Witness for C1 at the sample canted eye pair. -/
theorem updateEyeInfo_parallel_projection_correction_witness :
    (∀ i, ((updateEyeInfo true eyeSample).cachedEyeInfo i).hmdToEyePose.orientation
        = Quatf.identity) ∧
    ((updateEyeInfo true eyeSample).cachedEyeFov 0).angleLeft
        = (rawEyeFov (eyeSample 0)).angleLeft + -eyeCanting eyeSample ∧
    ((updateEyeInfo true eyeSample).cachedEyeFov 0).angleRight
        = (rawEyeFov (eyeSample 0)).angleRight + -eyeCanting eyeSample ∧
    ((updateEyeInfo true eyeSample).cachedEyeFov 1).angleLeft
        = (rawEyeFov (eyeSample 1)).angleLeft + eyeCanting eyeSample ∧
    ((updateEyeInfo true eyeSample).cachedEyeFov 1).angleRight
        = (rawEyeFov (eyeSample 1)).angleRight + eyeCanting eyeSample ∧
    (∀ i, ((updateEyeInfo true eyeSample).cachedEyeFov i).angleUp
            = (rawEyeFov (eyeSample i)).angleUp + degreeToRad 6 ∧
          ((updateEyeInfo true eyeSample).cachedEyeFov i).angleDown
            = (rawEyeFov (eyeSample i)).angleDown - degreeToRad 6) :=
  updateEyeInfo_parallel_projection_correction eyeSample eyeCanting_eyeSample_ne_zero

/-! ## C4: the raw arctangent-derived FOV -/

/-- C4: whenever no parallel-projection correction applies, the cached
per-eye angular FOV is exactly the arctangent of each tangent boundary,
with `angleDown` and `angleLeft` negated, for both eyes. -/
theorem updateEyeInfo_raw_fov (pp : Bool) (e : Fin 2 → EyeRenderInfo)
    (h : ¬(pp = true ∧ eyeCanting e ≠ 0)) (i : Fin 2) :
    (updateEyeInfo pp e).cachedEyeFov i =
      { angleDown := -Real.arctan (e i).fov.downTan
        angleUp := Real.arctan (e i).fov.upTan
        angleLeft := -Real.arctan (e i).fov.leftTan
        angleRight := Real.arctan (e i).fov.rightTan } := by
  simp only [updateEyeInfo]
  rw [if_neg h]
  rfl

/-- Witness for C4: with correction off, the sample eye pair's cached
FOV for the left eye is the arctangent-derived one. -/
theorem updateEyeInfo_raw_fov_witness :
    ¬(false = true ∧ eyeCanting eyeSample ≠ 0) ∧
    (updateEyeInfo false eyeSample).cachedEyeFov 0 =
      { angleDown := -Real.arctan (eyeSample 0).fov.downTan
        angleUp := Real.arctan (eyeSample 0).fov.upTan
        angleLeft := -Real.arctan (eyeSample 0).fov.leftTan
        angleRight := Real.arctan (eyeSample 0).fov.rightTan } :=
  ⟨by simp, updateEyeInfo_raw_fov false eyeSample (by simp) 0⟩

/-! ## C3: the canting angle -/

/-- C3: for every eye pair whose left orientation is a unit quaternion,
the canting angle cached by `updateEyeInfo` is half the angular
separation between the two orientation quaternions, and it is zero when
the two orientations are identical. -/
theorem updateEyeInfo_canting_is_half_angle (pp : Bool) (e : Fin 2 → EyeRenderInfo)
    (hunit : (e 0).hmdToEyePose.orientation.dot (e 0).hmdToEyePose.orientation = 1) :
    (updateEyeInfo pp e).cantingAngle
        = Quatf.angleBetween (e 0).hmdToEyePose.orientation (e 1).hmdToEyePose.orientation / 2
      ∧ ((e 1).hmdToEyePose.orientation = (e 0).hmdToEyePose.orientation →
          (updateEyeInfo pp e).cantingAngle = 0) := by
  rw [updateEyeInfo_cantingAngle]
  refine ⟨rfl, fun hsame => ?_⟩
  rw [eyeCanting, cantingAngleOf, hsame, Quatf.angleBetween, hunit]
  simp [Real.arccos_one]

/-- Witness for C3 at the sample canted eye pair (whose left eye has a
unit orientation quaternion). -/
theorem updateEyeInfo_canting_is_half_angle_witness :
    (eyeSample 0).hmdToEyePose.orientation.dot (eyeSample 0).hmdToEyePose.orientation = 1 ∧
    ((updateEyeInfo true eyeSample).cantingAngle
        = Quatf.angleBetween (eyeSample 0).hmdToEyePose.orientation
            (eyeSample 1).hmdToEyePose.orientation / 2
      ∧ ((eyeSample 1).hmdToEyePose.orientation = (eyeSample 0).hmdToEyePose.orientation →
          (updateEyeInfo true eyeSample).cantingAngle = 0)) := by
  have hunit : (eyeSample 0).hmdToEyePose.orientation.dot
      (eyeSample 0).hmdToEyePose.orientation = 1 := by
    show qForward.dot qForward = 1
    simp [Quatf.dot, qForward]
  exact ⟨hunit, updateEyeInfo_canting_is_half_angle true eyeSample hunit⟩

/-! ## C2: projection-mode gating -/

theorem useParallelProjectionFlag_eq_true (c : ℝ) (f : Int) :
    useParallelProjectionFlag c f = true ↔ (c ≠ 0 ∧ f = 0) := by
  simp [useParallelProjectionFlag]

/-- A sample companion configuration with `steamvr_use_native_fov = 0`. -/
def cfgPP : CompanionConfig := ⟨0, 1, 0, 0, 90, 0⟩

/-- A sample viewport-size service answer. -/
def oracleSample : FovPort → PvrSizei := fun _ => ⟨4312, 5103⟩

/-- C2: parallel-projection correction is selected if and only if the
canting angle is nonzero and `steamvr_use_native_fov` is unset; zero
canting forces Native regardless of the flag, and a set flag forces
Native regardless of canting. -/
theorem projection_mode_gating (e : Fin 2 → EyeRenderInfo) (cfg : CompanionConfig)
    (r : ℝ) (oracle : FovPort → PvrSizei) :
    ((getRuntimeStatus e cfg r oracle).useParallelProjection = true
        ↔ (eyeCanting e ≠ 0 ∧ cfg.steamvrUseNativeFov = 0)) ∧
    (projectionMode (eyeCanting e) cfg.steamvrUseNativeFov
          = ProjectionMode.parallelProjectionCorrected
        ↔ (eyeCanting e ≠ 0 ∧ cfg.steamvrUseNativeFov = 0)) ∧
    (eyeCanting e = 0 →
      projectionMode (eyeCanting e) cfg.steamvrUseNativeFov = ProjectionMode.native) ∧
    (cfg.steamvrUseNativeFov ≠ 0 →
      projectionMode (eyeCanting e) cfg.steamvrUseNativeFov = ProjectionMode.native) := by
  have hflag := useParallelProjectionFlag_eq_true (eyeCanting e) cfg.steamvrUseNativeFov
  have hnative : ¬(eyeCanting e ≠ 0 ∧ cfg.steamvrUseNativeFov = 0) →
      projectionMode (eyeCanting e) cfg.steamvrUseNativeFov = ProjectionMode.native := by
    intro hne
    have hb : ¬(useParallelProjectionFlag (eyeCanting e) cfg.steamvrUseNativeFov = true) :=
      fun h => hne (hflag.mp h)
    rw [projectionMode, if_neg hb]
  refine ⟨hflag, ?_, ?_, ?_⟩
  · constructor
    · intro hmode
      by_contra hne
      rw [hnative hne] at hmode
      exact ProjectionMode.noConfusion hmode
    · intro hcond
      rw [projectionMode, if_pos (hflag.mpr hcond)]
  · intro h0
    exact hnative fun hcond => hcond.1 h0
  · intro hf
    exact hnative fun hcond => hf hcond.2

/-- Witness for C2: the sample canted pair with the flag unset selects
parallel-projection correction. -/
theorem projection_mode_gating_witness :
    (eyeCanting eyeSample ≠ 0 ∧ cfgPP.steamvrUseNativeFov = 0) ∧
    (getRuntimeStatus eyeSample cfgPP 90 oracleSample).useParallelProjection = true := by
  have hcond : eyeCanting eyeSample ≠ 0 ∧ cfgPP.steamvrUseNativeFov = 0 :=
    ⟨eyeCanting_eyeSample_ne_zero, rfl⟩
  exact ⟨hcond, (projection_mode_gating eyeSample cfgPP 90 oracleSample).1.mpr hcond⟩

/-! ## C9: the representative FOV used to size render targets -/

/-- C9: in corrected mode, the FOV passed to the viewport-size query is
the left eye's FOV with the left tangent widened by the canting angle,
the right tangent narrowed by it, and both vertical tangents widened by
6°, all computed in angle space; in native mode the unmodified left-eye
FOV is passed. -/
theorem runtime_status_fov_for_resolution (e : Fin 2 → EyeRenderInfo)
    (cfg : CompanionConfig) (r : ℝ) (oracle : FovPort → PvrSizei) :
    ((eyeCanting e ≠ 0 ∧ cfg.steamvrUseNativeFov = 0) →
      (getRuntimeStatus e cfg r oracle).resolutionWidth =
        (oracle { upTan := Real.tan (Real.arctan (e 0).fov.upTan + degreeToRad 6)
                  downTan := Real.tan (Real.arctan (e 0).fov.downTan + degreeToRad 6)
                  leftTan := Real.tan (Real.arctan (e 0).fov.leftTan + eyeCanting e)
                  rightTan := Real.tan (Real.arctan (e 0).fov.rightTan - eyeCanting e) }).w ∧
      (getRuntimeStatus e cfg r oracle).resolutionHeight =
        (oracle { upTan := Real.tan (Real.arctan (e 0).fov.upTan + degreeToRad 6)
                  downTan := Real.tan (Real.arctan (e 0).fov.downTan + degreeToRad 6)
                  leftTan := Real.tan (Real.arctan (e 0).fov.leftTan + eyeCanting e)
                  rightTan := Real.tan (Real.arctan (e 0).fov.rightTan - eyeCanting e) }).h) ∧
    (¬(eyeCanting e ≠ 0 ∧ cfg.steamvrUseNativeFov = 0) →
      (getRuntimeStatus e cfg r oracle).resolutionWidth = (oracle (e 0).fov).w ∧
      (getRuntimeStatus e cfg r oracle).resolutionHeight = (oracle (e 0).fov).h) := by
  have hflag := useParallelProjectionFlag_eq_true (eyeCanting e) cfg.steamvrUseNativeFov
  constructor
  · intro hcond
    have hb : useParallelProjectionFlag (eyeCanting e) cfg.steamvrUseNativeFov = true :=
      hflag.mpr hcond
    simp only [getRuntimeStatus, hb, if_true]
    constructor <;> trivial
  · intro hne
    have hb : useParallelProjectionFlag (eyeCanting e) cfg.steamvrUseNativeFov = false :=
      Bool.eq_false_iff.mpr fun h => hne (hflag.mp h)
    simp only [getRuntimeStatus, hb, if_false]
    constructor <;> trivial

/-- Witness for C9 in corrected mode at the sample inputs. -/
theorem runtime_status_fov_for_resolution_witness :
    (eyeCanting eyeSample ≠ 0 ∧ cfgPP.steamvrUseNativeFov = 0) ∧
    (getRuntimeStatus eyeSample cfgPP 90 oracleSample).resolutionWidth =
      (oracleSample
        { upTan := Real.tan (Real.arctan (eyeSample 0).fov.upTan + degreeToRad 6)
          downTan := Real.tan (Real.arctan (eyeSample 0).fov.downTan + degreeToRad 6)
          leftTan := Real.tan (Real.arctan (eyeSample 0).fov.leftTan + eyeCanting eyeSample)
          rightTan :=
            Real.tan (Real.arctan (eyeSample 0).fov.rightTan - eyeCanting eyeSample) }).w := by
  have hcond : eyeCanting eyeSample ≠ 0 ∧ cfgPP.steamvrUseNativeFov = 0 :=
    ⟨eyeCanting_eyeSample_ne_zero, rfl⟩
  exact ⟨hcond,
    ((runtime_status_fov_for_resolution eyeSample cfgPP 90 oracleSample).1 hcond).1⟩

/-! ## Sample runtime states and device answers -/

/-- A sample cached device identity. -/
def hmdInfoA : HmdInfo := ⟨13476, 17, "Pimax 8K", 3840, 2160⟩

/-- A different device identity, as returned by a later refresh. -/
def hmdInfoB : HmdInfo := ⟨999, 999, "Pimax 5K", 2560, 1440⟩

/-- A runtime state after a successful acquisition: instance, session
and system created, with a cached snapshot. -/
def stReady : RuntimeState :=
  { instanceCreated := true
    pvrSession := true
    systemCreated := true
    loggedProductName := true
    useParallelProjection := true
    hasHandTrackingExt := true
    cachedHmdInfo := hmdInfoA
    floorHeight := 0
    cachedEyeInfo := eyeSample
    cachedEyeFov := fun _ => ⟨0, 0, 0, 0⟩
    cantingAngle := 0 }

/-- A runtime state with an instance but no session and no system yet. -/
def stNoSession : RuntimeState :=
  { stReady with pvrSession := false, systemCreated := false, loggedProductName := false }

/-- A device service whose session creation fails with `pvr_rpc_failed`. -/
def devRpcFail : Device :=
  { createSessionResult := .rpcFailed
    getHmdStatusResult := .success
    hmdStatus := ⟨true, true, true, true, false, false⟩
    getHmdInfoResult := .success
    hmdInfo := hmdInfoB
    eyeHeightConfig := 0
    getEyeRenderInfoLeftResult := .success
    getEyeRenderInfoRightResult := .success
    eyeRenderInfo := eyeSample
    setTrackingOriginResult := .success }

/-- A device service that answers identity and floor height but fails
at the left-eye render-info fetch. -/
def devPartialFail : Device :=
  { createSessionResult := .success
    getHmdStatusResult := .success
    hmdStatus := ⟨true, true, true, true, false, false⟩
    getHmdInfoResult := .success
    hmdInfo := hmdInfoB
    eyeHeightConfig := 1
    getEyeRenderInfoLeftResult := .otherFailure
    getEyeRenderInfoRightResult := .success
    eyeRenderInfo := eyeSample
    setTrackingOriginResult := .success }

/-! ## C5: the blend-mode enumeration contract -/

/-- C5: with valid instance, system and view-configuration arguments and
a caller-supplied output array, capacity 0 succeeds with count 1 and no
entries written; a nonzero capacity below the true count 1 (an impossible
capacity, so this clause holds vacuously) would be rejected with
InsufficientBuffer and no entries written; capacity ≥ 1 succeeds with
count 1 and exactly the single entry Opaque written. -/
theorem enumerate_blend_modes_contract (st : RuntimeState) (inst sysId cap : Nat)
    (ap : Bool) (hInst : st.instanceCreated = true) (hI : inst = 1)
    (hSys : st.systemCreated = true) (hS : sysId = 1) (hap : ap = true) :
    (xrEnumerateEnvironmentBlendModes st inst sysId XrViewConfigurationType.primaryStereo 0 ap
        = ⟨XrResult.success, some 1, []⟩) ∧
    (cap ≠ 0 → cap < 1 →
      (xrEnumerateEnvironmentBlendModes st inst sysId
          XrViewConfigurationType.primaryStereo cap ap).result
            = XrResult.errorSizeInsufficient ∧
      (xrEnumerateEnvironmentBlendModes st inst sysId
          XrViewConfigurationType.primaryStereo cap ap).written = []) ∧
    (1 ≤ cap →
      xrEnumerateEnvironmentBlendModes st inst sysId XrViewConfigurationType.primaryStereo cap ap
        = ⟨XrResult.success, some 1, [XrEnvironmentBlendMode.opaqueBlend]⟩) := by
  subst hI hS hap
  refine ⟨?_, ?_, ?_⟩
  · simp [xrEnumerateEnvironmentBlendModes, hInst, hSys, blendModes]
  · intro h1 h2
    omega
  · intro hcap
    have hne : cap ≠ 0 := by omega
    simp [xrEnumerateEnvironmentBlendModes, hInst, hSys, hne, Nat.lt_one_iff, blendModes]

/-- Witness for C5 at a ready state, with capacities 0 and 2. -/
theorem enumerate_blend_modes_contract_witness :
    (stReady.instanceCreated = true ∧ stReady.systemCreated = true) ∧
    (xrEnumerateEnvironmentBlendModes stReady 1 1 XrViewConfigurationType.primaryStereo 0 true
        = ⟨XrResult.success, some 1, []⟩) ∧
    (xrEnumerateEnvironmentBlendModes stReady 1 1 XrViewConfigurationType.primaryStereo 2 true
        = ⟨XrResult.success, some 1, [XrEnvironmentBlendMode.opaqueBlend]⟩) := by
  have h := enumerate_blend_modes_contract stReady 1 1 2 true rfl rfl rfl rfl rfl
  exact ⟨⟨rfl, rfl⟩, h.1, h.2.2 (by omega)⟩

/-! ## C10: nonzero capacity with a null output array -/

/-- C10: with valid handles and view configuration, a nonzero capacity
and a null output-array pointer, the call succeeds, writes the count
output 1, and writes nothing through the array pointer (the fill branch
is guarded on the pointer being non-null). -/
theorem enumerate_blend_modes_null_array (st : RuntimeState) (cap : Nat)
    (hInst : st.instanceCreated = true) (hSys : st.systemCreated = true)
    (hcap : cap ≠ 0) :
    xrEnumerateEnvironmentBlendModes st 1 1 XrViewConfigurationType.primaryStereo cap false
      = ⟨XrResult.success, some 1, []⟩ := by
  simp [xrEnumerateEnvironmentBlendModes, hInst, hSys, hcap, Nat.lt_one_iff, blendModes]

/-- Witness for C10 at a ready state with capacity 3. -/
theorem enumerate_blend_modes_null_array_witness :
    (stReady.instanceCreated = true ∧ stReady.systemCreated = true ∧ (3 : Nat) ≠ 0) ∧
    xrEnumerateEnvironmentBlendModes stReady 1 1 XrViewConfigurationType.primaryStereo 3 false
      = ⟨XrResult.success, some 1, []⟩ :=
  ⟨⟨rfl, rfl, by omega⟩, enumerate_blend_modes_null_array stReady 3 rfl rfl (by omega)⟩

/-! ## C6: the two "system unavailable" outcomes of `xrGetSystem` -/

/-- C6: with a valid instance and the HMD form factor, an rpc-failed
session creation, or a device status without both service-ready and
HMD-present, yields the non-fatal FormFactorUnavailable result and
leaves `m_systemCreated` unchanged. -/
theorem get_system_unavailable_cases (st : RuntimeState) (dev : Device)
    (hInst : st.instanceCreated = true) :
    ((st.pvrSession = false ∧ dev.createSessionResult = PvrResult.rpcFailed) →
      (xrGetSystem st dev 1 true XrFormFactor.headMountedDisplay).result
          = XrResult.errorFormFactorUnavailable ∧
      (xrGetSystem st dev 1 true XrFormFactor.headMountedDisplay).state.systemCreated
          = st.systemCreated) ∧
    ((st.pvrSession = true ∨ dev.createSessionResult = PvrResult.success) →
      dev.getHmdStatusResult = PvrResult.success →
      ¬(dev.hmdStatus.serviceReady = true ∧ dev.hmdStatus.hmdPresent = true) →
      (xrGetSystem st dev 1 true XrFormFactor.headMountedDisplay).result
          = XrResult.errorFormFactorUnavailable ∧
      (xrGetSystem st dev 1 true XrFormFactor.headMountedDisplay).state.systemCreated
          = st.systemCreated) := by
  constructor
  · intro h1
    simp [xrGetSystem, hInst, h1.1, h1.2]
  · intro hsess hstat hflags
    rcases hsess with hs | hc
    · simp [xrGetSystem, getSystemRefresh, hInst, hs, hstat, hflags]
    · simp [xrGetSystem, getSystemRefresh, hInst, hc, hstat, hflags]

/-- Witness for C6: an rpc-failed session creation from a state without
a session yields FormFactorUnavailable and no system. -/
theorem get_system_unavailable_cases_witness :
    (stNoSession.instanceCreated = true ∧ stNoSession.pvrSession = false ∧
      devRpcFail.createSessionResult = PvrResult.rpcFailed) ∧
    (xrGetSystem stNoSession devRpcFail 1 true XrFormFactor.headMountedDisplay).result
        = XrResult.errorFormFactorUnavailable ∧
    (xrGetSystem stNoSession devRpcFail 1 true XrFormFactor.headMountedDisplay).state.systemCreated
        = stNoSession.systemCreated := by
  have h := (get_system_unavailable_cases stNoSession devRpcFail rfl).1 ⟨rfl, rfl⟩
  exact ⟨⟨rfl, rfl, rfl⟩, h.1, h.2⟩

/-! ## C7: atomicity of a failing `xrGetSystem` -/

theorem refresh_result_or_created (st1 : RuntimeState) (dev : Device) :
    (getSystemRefresh st1 dev).result = XrResult.success ∨
    (getSystemRefresh st1 dev).state.systemCreated = st1.systemCreated := by
  simp only [getSystemRefresh]
  repeat' split
  all_goals simp

theorem refresh_state_cases (st1 : RuntimeState) (dev : Device) :
    (getSystemRefresh st1 dev).state = st1 ∨
    (getSystemRefresh st1 dev).result = XrResult.errorRuntimeFailure ∨
    (getSystemRefresh st1 dev).result = XrResult.success := by
  simp only [getSystemRefresh]
  repeat' split
  all_goals simp

theorem get_system_result_or_created (st : RuntimeState) (dev : Device)
    (inst : Nat) (t : Bool) (ff : XrFormFactor) :
    (xrGetSystem st dev inst t ff).result = XrResult.success ∨
    (xrGetSystem st dev inst t ff).state.systemCreated = st.systemCreated := by
  simp only [xrGetSystem]
  repeat' split
  · exact Or.inr rfl
  · exact Or.inr rfl
  · exact Or.inr rfl
  · exact Or.inr rfl
  · exact Or.inr rfl
  · exact refresh_result_or_created { st with pvrSession := true } dev

theorem get_system_state_cases (st : RuntimeState) (dev : Device)
    (inst : Nat) (t : Bool) (ff : XrFormFactor) :
    (xrGetSystem st dev inst t ff).state = st ∨
    (xrGetSystem st dev inst t ff).state = { st with pvrSession := true } ∨
    (xrGetSystem st dev inst t ff).result = XrResult.errorRuntimeFailure ∨
    (xrGetSystem st dev inst t ff).result = XrResult.success := by
  simp only [xrGetSystem]
  repeat' split
  · exact Or.inl rfl
  · exact Or.inl rfl
  · exact Or.inl rfl
  · exact Or.inl rfl
  · exact Or.inr (Or.inr (Or.inl rfl))
  · rcases refresh_state_cases { st with pvrSession := true } dev with h | h | h
    · exact Or.inr (Or.inl h)
    · exact Or.inr (Or.inr (Or.inl h))
    · exact Or.inr (Or.inr (Or.inr h))

/-- Counterexample to C7 as stated: from a previously created system,
a device answer that succeeds through identity and floor height but
fails at the left-eye render-info fetch makes `xrGetSystem` fail, yet
the previously cached `m_cachedHmdInfo` has already been overwritten —
the snapshot IS partially overwritten by a failing call. -/
theorem get_system_failure_overwrites_snapshot :
    (xrGetSystem stReady devPartialFail 1 true XrFormFactor.headMountedDisplay).result
        ≠ XrResult.success ∧
    (xrGetSystem stReady devPartialFail 1 true XrFormFactor.headMountedDisplay).state.cachedHmdInfo
        ≠ stReady.cachedHmdInfo := by
  constructor
  · simp [xrGetSystem, getSystemRefresh, stReady, devPartialFail]
  · simp [xrGetSystem, getSystemRefresh, stReady, devPartialFail, hmdInfoA, hmdInfoB]

/-- C7 (amended): a failing `xrGetSystem` never changes
`m_systemCreated`; moreover a FormFactorUnavailable (non-fatal) failure
leaves the whole cached snapshot (identity, floor height, eye info,
derived FOV) untouched. A fatal failure partway through the refresh can,
however, leave fields fetched before the failing step overwritten. -/
theorem get_system_failure_atomicity (st : RuntimeState) (dev : Device)
    (inst : Nat) (t : Bool) (ff : XrFormFactor)
    (h : (xrGetSystem st dev inst t ff).result ≠ XrResult.success) :
    (xrGetSystem st dev inst t ff).state.systemCreated = st.systemCreated ∧
    ((xrGetSystem st dev inst t ff).result = XrResult.errorFormFactorUnavailable →
      (xrGetSystem st dev inst t ff).state.cachedHmdInfo = st.cachedHmdInfo ∧
      (xrGetSystem st dev inst t ff).state.floorHeight = st.floorHeight ∧
      (xrGetSystem st dev inst t ff).state.cachedEyeInfo = st.cachedEyeInfo ∧
      (xrGetSystem st dev inst t ff).state.cachedEyeFov = st.cachedEyeFov) := by
  constructor
  · rcases get_system_result_or_created st dev inst t ff with hs | hc
    · exact absurd hs h
    · exact hc
  · intro hu
    rcases get_system_state_cases st dev inst t ff with hst | hst | hr | hr
    · rw [hst]
      exact ⟨rfl, rfl, rfl, rfl⟩
    · rw [hst]
      exact ⟨rfl, rfl, rfl, rfl⟩
    · rw [hr] at hu
      exact XrResult.noConfusion hu
    · rw [hr] at hu
      exact XrResult.noConfusion hu

/-- Witness for the amended C7 at a concrete failing call. -/
theorem get_system_failure_atomicity_witness :
    (xrGetSystem stNoSession devRpcFail 1 true XrFormFactor.headMountedDisplay).result
        ≠ XrResult.success ∧
    (xrGetSystem stNoSession devRpcFail 1 true XrFormFactor.headMountedDisplay).state.systemCreated
        = stNoSession.systemCreated := by
  have hne : (xrGetSystem stNoSession devRpcFail 1 true
      XrFormFactor.headMountedDisplay).result ≠ XrResult.success := by
    simp [xrGetSystem, stNoSession, stReady, devRpcFail]
  exact ⟨hne,
    (get_system_failure_atomicity stNoSession devRpcFail 1 true
        XrFormFactor.headMountedDisplay hne).1⟩

/-! ## C8: the extension chain walk of `xrGetSystemProperties` -/

/-- A ready state with the hand-tracking extension not negotiated. -/
def stReadyNoExt : RuntimeState := { stReady with hasHandTrackingExt := false }

/-- A chain holding a single block of unrecognized type. -/
def chainOtherTag : List ChainBlock := [⟨XrStructureType.otherTag 7, false⟩]

/-- C8 (code bug): with the hand-tracking extension NOT negotiated and
the chain holding one block of unrecognized type, the call succeeds but
writes `supportsHandTracking = XR_TRUE` through the head of the chain:
the cursor initialized at `system.cpp:143-144` is only advanced and
filtered by the loop when `has_XR_EXT_hand_tracking` is set, yet the
write at `system.cpp:181-182` is performed whenever the cursor is
non-null. The claim requires the unrecognized block to be left
untouched. -/
theorem properties_chain_written_without_extension :
    (xrGetSystemProperties stReadyNoExt 1 1 true chainOtherTag).result = XrResult.success ∧
    (xrGetSystemProperties stReadyNoExt 1 1 true chainOtherTag).chain
        = [⟨XrStructureType.otherTag 7, true⟩] := by
  constructor <;> rfl

end PimaxXR
